import Mathlib

/-!
Shallow embedding of the schedule execution engine of the skllz-twitter-bot
repository: the schedules table (schema.sql), the PostgreSQL advisory-lock
wrapper (src/utils/locks.ts), the Executor `executeSchedule`, the store
accessors `loadSchedules` / `updateScheduleTimes` and the Supervisor
`startScheduler` (src/index.ts), and the management-CLI `addSchedule`
(src/schedule.ts).  Time is modelled as epoch milliseconds (`Int`);
the croner library is modelled by two explicit function parameters
(validity of a pattern+timezone pair, and the next-run computation).
-/

namespace Skllz

/-- A row of the `schedules` table / the `Schedule` interface of src/index.ts.
`last_run_at` and `next_run_at` are nullable timestamps (epoch ms). -/
structure Schedule where
  id : Nat
  type : String
  cron_pattern : String
  timezone : String
  enabled : Bool
  last_run_at : Option Int
  next_run_at : Option Int
  created_at : Int
  updated_at : Int
deriving Repr, DecidableEq

/-- The `CHECK (type IN ('thank', 'shill'))` constraint of the `schedules`
table in schema.sql and in the migration that created the table. -/
def schedulesTypeCheck (ty : String) : Bool :=
  ty = "thank" || ty = "shill"

/-- Inserting a row into the `schedules` table: the insert succeeds only when
the row satisfies the table's CHECK constraint on `type`; on a constraint
violation the statement fails and the table is unchanged (`none`). -/
def insertScheduleRow (db : List Schedule) (row : Schedule) :
    Option (List Schedule) :=
  if schedulesTypeCheck row.type then some (db ++ [row]) else none

/-- PostgreSQL session-level advisory locks, as used by src/utils/locks.ts:
each key is either free or held by one session with a reentrancy count. -/
structure LockState where
  owner : Nat → Option (Nat × Nat)

/-- A lock state in which no key is held. -/
def emptyLocks : LockState := ⟨fun _ => none⟩

/-- `pg_try_advisory_lock(key)` issued from session `sess`: succeeds when the
key is free (taking it with count 1) or already held by the same session
(incrementing the count); fails without blocking when another session holds
it.  `acquireLock` in src/utils/locks.ts returns exactly this boolean. -/
def acquireLock (st : LockState) (sess key : Nat) : Bool × LockState :=
  match st.owner key with
  | none =>
      (true, ⟨fun k => if k = key then some (sess, 1) else st.owner k⟩)
  | some (o, c) =>
      if o = sess then
        (true, ⟨fun k => if k = key then some (sess, c + 1) else st.owner k⟩)
      else
        (false, st)

/-- `pg_advisory_unlock(key)` issued from session `sess`: returns whether a
lock was actually released (the current session held the key); a count of 1
frees the key, a higher count is decremented.  `releaseLock` in
src/utils/locks.ts returns exactly this boolean. -/
def releaseLock (st : LockState) (sess key : Nat) : Bool × LockState :=
  match st.owner key with
  | none => (false, st)
  | some (o, c) =>
      if o = sess then
        if c ≤ 1 then
          (true, ⟨fun k => if k = key then none else st.owner k⟩)
        else
          (true, ⟨fun k => if k = key then some (sess, c - 1) else st.owner k⟩)
      else
        (false, st)

/-- The minimum interval between two runs of one schedule enforced by
`executeSchedule`: `60 * 1000` milliseconds. -/
def minIntervalMs : Int := 60 * 1000

/-- `updateScheduleTimes` of src/index.ts: the single UPDATE statement
`SET last_run_at = $1, next_run_at = $2, updated_at = CURRENT_TIMESTAMP
WHERE id = $3` applied to the schedules table. -/
def updateScheduleTimes (db : List Schedule) (scheduleId : Nat)
    (lastRunAt : Int) (nextRunAt : Option Int) (nowTs : Int) :
    List Schedule :=
  db.map fun s =>
    if s.id = scheduleId then
      { s with last_run_at := some lastRunAt, next_run_at := nextRunAt,
               updated_at := nowTs }
    else s

/-- How one firing of `executeSchedule` ended. -/
inductive ExecOutcome where
  /-- `acquireLock` returned false: logged and returned, nothing else done. -/
  | lockFailed
  /-- `last_run_at` was set and `now - last_run_at < 60_000`: returned from
  inside the try block, the finally released the lock. -/
  | skippedTooSoon
  /-- the job body (when dispatched) and the timestamp update both succeeded;
  carries the recomputed `next_run_at`. -/
  | completed (nextRun : Option Int)
  /-- the dispatched job body threw; caught by the catch block. -/
  | jobFailed
  /-- `new Cron(schedule.cron_pattern, ...)` threw inside the try block;
  caught by the catch block. -/
  | cronFailed
  /-- the `updateScheduleTimes` query threw; caught by the catch block. -/
  | updateFailed
deriving Repr, DecidableEq

/-- The observable effect of one firing of `executeSchedule`: how it ended,
the schedules table and the advisory-lock state afterwards, whether a job
body was invoked, and whether `releaseLock` was called. -/
structure ExecResult where
  outcome : ExecOutcome
  db : List Schedule
  locks : LockState
  jobInvoked : Bool
  releaseCalled : Bool

/-- The try block of `executeSchedule` (everything between the successful
lock acquisition and the finally): the minimum-interval check against the
captured record's `last_run_at`, the dispatch on `schedule.type` (only
"thank" and "shill" invoke a job body; any other value falls through to the
bookkeeping), the fresh Cron instance for `nextRun()`, and the
`updateScheduleTimes` query.  Returns the firing's outcome, the schedules
table afterwards, and whether a job body was invoked.  `cronValid p tz`
models whether `new Cron(p, { timezone: tz })` succeeds; `cronNext p tz now`
models `job.nextRun()`; `jobOk` models whether the dispatched job body
returns rather than throws; `updateOk` models whether the update query
succeeds. -/
def execTry (cronValid : String → String → Bool)
    (cronNext : String → String → Int → Option Int)
    (jobOk updateOk : Bool) (now : Int)
    (schedule : Schedule) (db : List Schedule) :
    ExecOutcome × List Schedule × Bool :=
  let tooSoon : Bool :=
    match schedule.last_run_at with
    | some lr => decide (now - lr < minIntervalMs)
    | none => false
  let dispatched : Bool :=
    schedule.type = "thank" || schedule.type = "shill"
  if tooSoon then
    (ExecOutcome.skippedTooSoon, db, false)
  else if dispatched && !jobOk then
    (ExecOutcome.jobFailed, db, dispatched)
  else if !(cronValid schedule.cron_pattern schedule.timezone) then
    (ExecOutcome.cronFailed, db, dispatched)
  else
    let nextRun := cronNext schedule.cron_pattern schedule.timezone now
    if updateOk then
      (ExecOutcome.completed nextRun,
        updateScheduleTimes db schedule.id now nextRun now, dispatched)
    else
      (ExecOutcome.updateFailed, db, dispatched)

/-- `executeSchedule` of src/index.ts, one firing for the captured `schedule`
record: try to acquire the advisory lock (returning immediately on failure),
run the try block, and release the lock in the finally.  The function is
total: a throw from the job body, the Cron constructor or the update query
is caught by the catch block (it never escapes the firing), and the finally
block releases the lock on every path after acquisition. -/
def executeSchedule (cronValid : String → String → Bool)
    (cronNext : String → String → Int → Option Int)
    (jobOk updateOk : Bool) (sess : Nat) (now : Int)
    (schedule : Schedule) (db : List Schedule) (locks : LockState) :
    ExecResult :=
  let acq := acquireLock locks sess schedule.id
  if acq.fst then
    let step := execTry cronValid cronNext jobOk updateOk now schedule db
    let rel := releaseLock acq.snd sess schedule.id
    { outcome := step.fst, db := step.snd.fst, locks := rel.snd,
      jobInvoked := step.snd.snd, releaseCalled := true }
  else
    { outcome := ExecOutcome.lockFailed, db := db, locks := acq.snd,
      jobInvoked := false, releaseCalled := false }

/-- Ordering of schedules used by the start-up query:
`ORDER BY id ASC`. -/
def scheduleLE (a b : Schedule) : Prop := a.id ≤ b.id

instance : DecidableRel scheduleLE := fun a b => Nat.decLe a.id b.id

instance : IsTotal Schedule scheduleLE :=
  ⟨fun a b => Nat.le_total a.id b.id⟩

instance : IsTrans Schedule scheduleLE :=
  ⟨fun _ _ _ hab hbc => Nat.le_trans hab hbc⟩

/-- `loadSchedules` of src/index.ts:
`SELECT * FROM schedules WHERE enabled = true ORDER BY id ASC`. -/
def loadSchedules (db : List Schedule) : List Schedule :=
  List.insertionSort scheduleLE (db.filter fun s => s.enabled)

/-- A live croner timer created by `startScheduler`: its pattern and
timezone, and the `Schedule` record the firing callback closed over (the
callback is `() => executeSchedule(schedule)`, so it captures the record
read at start-up by value of reference; nothing ever reassigns its fields). -/
structure Timer where
  scheduleId : Nat
  pattern : String
  timezone : String
  callbackSchedule : Schedule
deriving Repr, DecidableEq

/-- The timer `startScheduler` builds for one schedule:
`new Cron(schedule.cron_pattern, { timezone }, () => executeSchedule(schedule))`. -/
def mkTimer (s : Schedule) : Timer :=
  { scheduleId := s.id, pattern := s.cron_pattern,
    timezone := s.timezone, callbackSchedule := s }

/-- The `for (const schedule of schedules)` loop of `startScheduler`: each
iteration calls `new Cron(pattern, { timezone }, callback)` and pushes the
timer.  There is no try/catch around the constructor, so an invalid
pattern/timezone throws out of the loop and `startScheduler` itself rejects
(the error value carries the offending pattern). -/
def makeTimers (cronValid : String → String → Bool) :
    List Schedule → Except String (List Timer)
  | [] => Except.ok []
  | s :: rest =>
    if cronValid s.cron_pattern s.timezone then
      match makeTimers cronValid rest with
      | Except.ok ts => Except.ok (mkTimer s :: ts)
      | Except.error e => Except.error e
    else
      Except.error s.cron_pattern

/-- `startScheduler` of src/index.ts: load the enabled schedules and create
one timer per schedule; with zero enabled schedules it returns `[]` without
error.  An exception from a Cron constructor propagates (the caller `main`
catches it, logs `Failed to start bot` and exits the process). -/
def startScheduler (cronValid : String → String → Bool)
    (db : List Schedule) : Except String (List Timer) :=
  makeTimers cronValid (loadSchedules db)

/-- One firing of a live timer `t`: the croner callback runs
`executeSchedule` on the record the closure captured at start-up.  The
timer set itself is not touched by a firing. -/
def fireTimer (cronValid : String → String → Bool)
    (cronNext : String → String → Int → Option Int)
    (jobOk updateOk : Bool) (sess : Nat) (now : Int)
    (t : Timer) (timers : List Timer) (db : List Schedule)
    (locks : LockState) : List Timer × ExecResult :=
  (timers,
    executeSchedule cronValid cronNext jobOk updateOk sess now
      t.callbackSchedule db locks)

/-- The row the INSERT of `addSchedule` builds: the given type, pattern and
timezone, the computed first `next_run_at`, and the table defaults
(`enabled = true`, `last_run_at = null`, bookkeeping timestamps). -/
def newScheduleRow (ty pattern tz : String) (nextRun now : Int)
    (newId : Nat) : Schedule :=
  { id := newId, type := ty, cron_pattern := pattern, timezone := tz,
    enabled := true, last_run_at := none, next_run_at := some nextRun,
    created_at := now, updated_at := now }

/-- `addSchedule` of src/schedule.ts: validate the cron pattern by
constructing a Cron instance (a throwing constructor aborts the operation),
reject when `nextRun()` is null, and only then run the INSERT — which is
itself subject to the table's CHECK constraint on `type`.  Returns the
error message (if any) and the schedules table afterwards. -/
def addSchedule (cronValid : String → String → Bool)
    (cronNext : String → String → Int → Option Int) (now : Int)
    (ty pattern tz : String) (db : List Schedule) (newId : Nat) :
    Option String × List Schedule :=
  if cronValid pattern tz then
    match cronNext pattern tz now with
    | none =>
        (some "Invalid cron pattern: unable to determine next run time", db)
    | some nextRun =>
        match insertScheduleRow db (newScheduleRow ty pattern tz nextRun now
            newId) with
        | some db2 => (none, db2)
        | none => (some "violates check constraint", db)
  else
    (some "invalid cron pattern", db)

/-! Concrete fixtures used by witnesses, counterexamples and the
code-bug evaluation. -/

/-- A cron model in which every pattern/timezone pair is accepted. -/
def validAlways : String → String → Bool := fun _ _ => true

/-- A cron model whose next run is always one hour after the reference
time (the spec's `"0 * * * *"` example at a top-of-hour reference). -/
def nextHour : String → String → Int → Option Int :=
  fun _ _ now => some (now + 3600000)

/-- A cron model that rejects exactly the pattern `"bad"`. -/
def validUnlessBad : String → String → Bool :=
  fun p _ => !(p = "bad")

/-- A cron model that never yields a next run. -/
def noNext : String → String → Int → Option Int := fun _ _ _ => none

/-- The spec's example schedule: id 7, type "thank", hourly, UTC, enabled,
never run. -/
def sched7 : Schedule :=
  { id := 7, type := "thank", cron_pattern := "0 * * * *",
    timezone := "UTC", enabled := true, last_run_at := none,
    next_run_at := none, created_at := 0, updated_at := 0 }

/-- First firing of `sched7` at T = 1000000 ms, lock free, job body and
update succeeding. -/
def fire1 : ExecResult :=
  executeSchedule validAlways nextHour true true 0 1000000 sched7
    [sched7] emptyLocks

/-- Second firing of the same timer at T + 10s: the callback still passes
the captured `sched7` record, while the table and lock state are those left
by the first firing. -/
def fire2 : ExecResult :=
  executeSchedule validAlways nextHour true true 0 1010000 sched7
    fire1.db fire1.locks

/-- A schedule whose dispatched job body will be made to throw: id 3,
type "shill", never run. -/
def c1Sched : Schedule :=
  { id := 3, type := "shill", cron_pattern := "*/5 * * * *",
    timezone := "UTC", enabled := true, last_run_at := none,
    next_run_at := none, created_at := 0, updated_at := 0 }

/-- A firing of `c1Sched` at time 500000 in which the job body throws
(`jobOk = false`), the lock is free and the update query would succeed. -/
def c1res : ExecResult :=
  executeSchedule validAlways nextHour false true 0 500000 c1Sched
    [c1Sched] emptyLocks

/-- `sched7` as it would be loaded after a run at time 1000000. -/
def sched7ran : Schedule := { sched7 with last_run_at := some 1000000 }

/-- A start-up table with three enabled schedules of which only the middle
one (id 8) has an invalid cron pattern. -/
def c7db : List Schedule :=
  [sched7, { sched7 with id := 8, cron_pattern := "bad" },
    { sched7 with id := 9 }]

/-- The invalid middle schedule of `c7db`. -/
def badSched : Schedule := { sched7 with id := 8, cron_pattern := "bad" }

/-- A start-up table with one enabled and one disabled schedule. -/
def c9db : List Schedule :=
  [{ sched7 with id := 12, enabled := false }, sched7]

/-- A schedule row whose `type` is outside the known set
{"thank", "shill"}. -/
def promoRow : Schedule := { sched7 with id := 11, type := "promo" }

/-- The row the first firing of `sched7` persists. -/
def fire1Row : Schedule :=
  { sched7 with last_run_at := some 1000000, next_run_at := some 4600000,
                updated_at := 1000000 }

/-- The row the second (duplicate) firing persists. -/
def fire2Row : Schedule :=
  { sched7 with last_run_at := some 1010000, next_run_at := some 4610000,
                updated_at := 1010000 }

/-! Helper lemmas about the lock model and the Executor. -/

/-- After a successful `acquireLock`, a `releaseLock` from the same session
reports `true`, and a further same-session `acquireLock` succeeds again. -/
theorem lock_roundtrip (st : LockState) (sess key : Nat)
    (h : (acquireLock st sess key).fst = true) :
    (releaseLock (acquireLock st sess key).snd sess key).fst = true ∧
    (acquireLock (releaseLock (acquireLock st sess key).snd sess key).snd
      sess key).fst = true := by
  cases hst : st.owner key with
  | none =>
      simp [acquireLock, releaseLock, hst]
  | some oc =>
      obtain ⟨o, c⟩ := oc
      by_cases ho : o = sess
      · subst ho
        by_cases hc : c + 1 ≤ 1
        · simp [acquireLock, releaseLock, hst, hc]
        · simp [acquireLock, releaseLock, hst, hc]
      · simp [acquireLock, hst, ho] at h

/-- With the lock acquired, `executeSchedule`'s final lock state is the one
left by the `finally` block's `releaseLock`. -/
theorem executeSchedule_locks (cronValid : String → String → Bool)
    (cronNext : String → String → Int → Option Int)
    (jobOk updateOk : Bool) (sess : Nat) (now : Int)
    (schedule : Schedule) (db : List Schedule) (locks : LockState)
    (h : (acquireLock locks sess schedule.id).fst = true) :
    (executeSchedule cronValid cronNext jobOk updateOk sess now schedule db
      locks).locks
      = (releaseLock (acquireLock locks sess schedule.id).snd sess
          schedule.id).snd := by
  simp [executeSchedule, h]

/-! C2 -/

/-- C2: for every schedule id, after `acquireLock` (the Lock Manager's
`tryAcquire`) returns true and the same session calls `releaseLock`,
the release reports `true`, an immediately subsequent same-session
`acquireLock` succeeds, and if the token was free beforehand the
acquire/release pair is a round-trip back to the unlocked state. -/
theorem c2_acquire_release_roundtrip (st : LockState) (sess key : Nat)
    (h : (acquireLock st sess key).fst = true) :
    (releaseLock (acquireLock st sess key).snd sess key).fst = true ∧
    (acquireLock (releaseLock (acquireLock st sess key).snd sess key).snd
      sess key).fst = true ∧
    (st.owner key = none →
      (releaseLock (acquireLock st sess key).snd sess key).snd.owner key
        = none) := by
  refine ⟨(lock_roundtrip st sess key h).1, (lock_roundtrip st sess key h).2,
    fun hfree => ?_⟩
  simp [acquireLock, releaseLock, hfree]

/-- C2 witness: the round-trip at session 0 and key 7 on the empty lock
state. -/
theorem c2_acquire_release_roundtrip_witness :
    (releaseLock (acquireLock emptyLocks 0 7).snd 0 7).fst = true ∧
    (acquireLock (releaseLock (acquireLock emptyLocks 0 7).snd 0 7).snd
      0 7).fst = true ∧
    (emptyLocks.owner 7 = none →
      (releaseLock (acquireLock emptyLocks 0 7).snd 0 7).snd.owner 7
        = none) :=
  c2_acquire_release_roundtrip emptyLocks 0 7 rfl

/-! C3 -/

/-- C3: whenever the firing's `acquireLock` succeeds, `executeSchedule`
calls `releaseLock` on every exit path that follows — minimum-interval
skip, successful execution, job-body error, Cron-constructor error and
timestamp-persistence error alike (the conclusion holds for every value of
`jobOk`, `updateOk`, the cron model and the schedule). -/
theorem c3_release_on_every_exit_path (cronValid : String → String → Bool)
    (cronNext : String → String → Int → Option Int)
    (jobOk updateOk : Bool) (sess : Nat) (now : Int)
    (schedule : Schedule) (db : List Schedule) (locks : LockState)
    (h : (acquireLock locks sess schedule.id).fst = true) :
    (executeSchedule cronValid cronNext jobOk updateOk sess now schedule db
      locks).releaseCalled = true := by
  simp [executeSchedule, h]

/-- C3 witness: a successful firing of `sched7` from the empty lock state
calls `releaseLock`. -/
theorem c3_release_on_every_exit_path_witness :
    (executeSchedule validAlways nextHour true true 0 1000000 sched7
      [sched7] emptyLocks).releaseCalled = true :=
  c3_release_on_every_exit_path validAlways nextHour true true 0 1000000
    sched7 [sched7] emptyLocks rfl

/-! C1 -/

/-- C1 counterexample: at the concrete firing of `c1Sched` at time 500000
with the lock free, the minimum-interval check passing and a job body that
throws, the error is caught (`outcome = jobFailed`), but the schedules
table is left exactly as it was: the row's `last_run_at` is still `none`,
not the firing time, and no `next_run_at` is computed — refuting the
claim that the timestamps are still persisted. -/
theorem c1_claim_counterexample :
    c1res.outcome = ExecOutcome.jobFailed ∧ c1res.db = [c1Sched] ∧
    c1Sched.last_run_at = none ∧ c1Sched.next_run_at = none := by
  decide

/-- C1 (amended): when the lock is acquired, the minimum-interval check
passes and the dispatched job body throws, `executeSchedule` catches the
error (the firing ends in `jobFailed` instead of propagating) and releases
the lock (a subsequent same-session `acquireLock` succeeds), but it does
NOT update the schedules table: `last_run_at` and `next_run_at` keep their
previous values. -/
theorem c1_job_error_caught_no_timestamp_update
    (cronValid : String → String → Bool)
    (cronNext : String → String → Int → Option Int)
    (updateOk : Bool) (sess : Nat) (now : Int)
    (schedule : Schedule) (db : List Schedule) (locks : LockState)
    (hacq : (acquireLock locks sess schedule.id).fst = true)
    (hmin : ∀ lr, schedule.last_run_at = some lr → minIntervalMs ≤ now - lr)
    (hty : schedule.type = "thank" ∨ schedule.type = "shill") :
    (executeSchedule cronValid cronNext false updateOk sess now schedule db
      locks).outcome = ExecOutcome.jobFailed ∧
    (executeSchedule cronValid cronNext false updateOk sess now schedule db
      locks).db = db ∧
    (executeSchedule cronValid cronNext false updateOk sess now schedule db
      locks).jobInvoked = true ∧
    (executeSchedule cronValid cronNext false updateOk sess now schedule db
      locks).releaseCalled = true ∧
    (acquireLock (executeSchedule cronValid cronNext false updateOk sess now
      schedule db locks).locks sess schedule.id).fst = true := by
  have htoo : (match schedule.last_run_at with
      | some lr => decide (now - lr < minIntervalMs)
      | none => false) = false := by
    cases hlr : schedule.last_run_at with
    | none => rfl
    | some lr =>
        have := hmin lr hlr
        simp [decide_eq_false_iff_not]
        omega
  have hdisp : (schedule.type = "thank" || schedule.type = "shill") = true := by
    rcases hty with h | h <;> simp [h]
  refine ⟨?_, ?_, ?_, ?_, ?_⟩
  · simp [executeSchedule, execTry, hacq, htoo, hdisp]
  · simp [executeSchedule, execTry, hacq, htoo, hdisp]
  · simp [executeSchedule, execTry, hacq, htoo, hdisp]
  · simp [executeSchedule, hacq]
  · rw [executeSchedule_locks cronValid cronNext false updateOk sess now
      schedule db locks hacq]
    exact (lock_roundtrip locks sess schedule.id hacq).2

/-- C1 witness: the amended theorem at a concrete firing of `sched7` with a
throwing job body at time 777. -/
theorem c1_job_error_caught_no_timestamp_update_witness :
    (executeSchedule validAlways nextHour false true 0 777 sched7
      [sched7] emptyLocks).outcome = ExecOutcome.jobFailed ∧
    (executeSchedule validAlways nextHour false true 0 777 sched7
      [sched7] emptyLocks).db = [sched7] ∧
    (executeSchedule validAlways nextHour false true 0 777 sched7
      [sched7] emptyLocks).jobInvoked = true ∧
    (executeSchedule validAlways nextHour false true 0 777 sched7
      [sched7] emptyLocks).releaseCalled = true ∧
    (acquireLock (executeSchedule validAlways nextHour false true 0 777
      sched7 [sched7] emptyLocks).locks 0 sched7.id).fst = true :=
  c1_job_error_caught_no_timestamp_update validAlways nextHour true 0 777
    sched7 [sched7] emptyLocks rfl
    (fun lr h => by simp [sched7] at h) (Or.inl rfl)

/-! C4 -/

/-- C4 (code bug evaluation): the end-to-end duplicate-trigger scenario.
`sched7` (created with `last_run_at = null`) fires at T = 1000000 and
completes, persisting `last_run_at = T` in the table; the same timer fires
again at T + 10s.  Because the callback still holds the start-up record
(whose `last_run_at` is `null`), the minimum-interval floor does not
reject the firing: the job body is invoked again and the firing completes,
contradicting the claimed skip with no job-body invocation. -/
theorem c4_duplicate_firing_runs_job_again :
    fire1.outcome = ExecOutcome.completed (some 4600000) ∧
    fire1.db = [fire1Row] ∧
    fire2.jobInvoked = true ∧
    fire2.outcome = ExecOutcome.completed (some 4610000) ∧
    fire2.db = [fire2Row] := by
  decide

/-! C5 helpers and theorem -/

/-- The try block's outcome and job-invocation flag do not depend on the
current contents of the schedules table. -/
theorem execTry_indep_of_db (cronValid : String → String → Bool)
    (cronNext : String → String → Int → Option Int)
    (jobOk updateOk : Bool) (now : Int) (s : Schedule)
    (db1 db2 : List Schedule) :
    (execTry cronValid cronNext jobOk updateOk now s db1).fst
      = (execTry cronValid cronNext jobOk updateOk now s db2).fst ∧
    (execTry cronValid cronNext jobOk updateOk now s db1).snd.snd
      = (execTry cronValid cronNext jobOk updateOk now s db2).snd.snd := by
  simp only [execTry]
  constructor <;> (repeat' split) <;> rfl

/-- The try block ends in the minimum-interval skip exactly when the
captured record's `last_run_at` is set and within one minute of `now`. -/
theorem execTry_skipped_iff (cronValid : String → String → Bool)
    (cronNext : String → String → Int → Option Int)
    (jobOk updateOk : Bool) (now : Int) (s : Schedule)
    (db : List Schedule) :
    (execTry cronValid cronNext jobOk updateOk now s db).fst
      = ExecOutcome.skippedTooSoon ↔
    ∃ lr, s.last_run_at = some lr ∧ now - lr < minIntervalMs := by
  cases hlr : s.last_run_at with
  | none =>
      simp only [execTry, hlr]
      constructor
      · intro h
        exfalso
        revert h
        repeat' split <;> simp_all
      · rintro ⟨lr, hl, -⟩
        cases hl
  | some lr =>
      by_cases hs : now - lr < minIntervalMs
      · simp [execTry, hlr, hs]
      · simp only [execTry, hlr]
        constructor
        · intro h
          exfalso
          revert h
          simp only [hs, decide_False]
          repeat' split <;> simp_all
        · rintro ⟨lr2, hl2, hs2⟩
          obtain rfl : lr = lr2 := by injection hl2
          exact absurd hs2 hs

/-- C5: the in-memory records are never mutated: a firing leaves the timer
set (and thus every callback's captured record) unchanged, the firing's
outcome and job-invocation flag are independent of the current contents of
the schedules table (`updateScheduleTimes` writes only the database row),
and the minimum-interval skip is decided exactly by the `last_run_at` value
of the record captured at start-up. -/
theorem c5_snapshot_decides_skip (cronValid : String → String → Bool)
    (cronNext : String → String → Int → Option Int)
    (jobOk updateOk : Bool) (sess : Nat) (now : Int)
    (t : Timer) (timers : List Timer) (db1 db2 : List Schedule)
    (locks : LockState) :
    (fireTimer cronValid cronNext jobOk updateOk sess now t timers db1
      locks).fst = timers ∧
    (executeSchedule cronValid cronNext jobOk updateOk sess now
      t.callbackSchedule db1 locks).outcome
      = (executeSchedule cronValid cronNext jobOk updateOk sess now
          t.callbackSchedule db2 locks).outcome ∧
    (executeSchedule cronValid cronNext jobOk updateOk sess now
      t.callbackSchedule db1 locks).jobInvoked
      = (executeSchedule cronValid cronNext jobOk updateOk sess now
          t.callbackSchedule db2 locks).jobInvoked ∧
    ((executeSchedule cronValid cronNext jobOk updateOk sess now
      t.callbackSchedule db1 locks).outcome = ExecOutcome.skippedTooSoon ↔
      (acquireLock locks sess t.callbackSchedule.id).fst = true ∧
      ∃ lr, t.callbackSchedule.last_run_at = some lr ∧
        now - lr < minIntervalMs) := by
  refine ⟨rfl, ?_, ?_, ?_⟩
  · cases hacq : (acquireLock locks sess t.callbackSchedule.id).fst
    · simp [executeSchedule, hacq]
    · simp only [executeSchedule, hacq, if_true]
      exact (execTry_indep_of_db cronValid cronNext jobOk updateOk now
        t.callbackSchedule db1 db2).1
  · cases hacq : (acquireLock locks sess t.callbackSchedule.id).fst
    · simp [executeSchedule, hacq]
    · simp only [executeSchedule, hacq, if_true]
      exact (execTry_indep_of_db cronValid cronNext jobOk updateOk now
        t.callbackSchedule db1 db2).2
  · cases hacq : (acquireLock locks sess t.callbackSchedule.id).fst
    · simp [executeSchedule, hacq]
    · simp only [executeSchedule, hacq, if_true]
      rw [execTry_skipped_iff]
      simp [hacq]

/-! C6 -/

/-- C6: when the lock is not acquired, or the minimum-interval check
rejects the firing (the captured record's `last_run_at` is set and
`now - last_run_at < 60s`), `executeSchedule` leaves the schedules table
entirely untouched. -/
theorem c6_skip_leaves_table_untouched (cronValid : String → String → Bool)
    (cronNext : String → String → Int → Option Int)
    (jobOk updateOk : Bool) (sess : Nat) (now : Int)
    (schedule : Schedule) (db : List Schedule) (locks : LockState)
    (h : (acquireLock locks sess schedule.id).fst = false ∨
      ∃ lr, schedule.last_run_at = some lr ∧ now - lr < minIntervalMs) :
    (executeSchedule cronValid cronNext jobOk updateOk sess now schedule db
      locks).db = db := by
  rcases h with hacq | ⟨lr, hlr, hsoon⟩
  · simp [executeSchedule, hacq]
  · cases hacq : (acquireLock locks sess schedule.id).fst
    · simp [executeSchedule, hacq]
    · have htoo : (match schedule.last_run_at with
          | some l => decide (now - l < minIntervalMs)
          | none => false) = true := by
        simp [hlr, hsoon]
      simp [executeSchedule, execTry, hacq, htoo]

/-- C6 witness: a firing of `sched7ran` ten seconds after its recorded
last run leaves the table unchanged. -/
theorem c6_skip_leaves_table_untouched_witness :
    (executeSchedule validAlways nextHour true true 0 1010000 sched7ran
      [sched7ran] emptyLocks).db = [sched7ran] :=
  c6_skip_leaves_table_untouched validAlways nextHour true true 0 1010000
    sched7ran [sched7ran] emptyLocks
    (Or.inr ⟨1000000, rfl, by decide⟩)

/-! C7 -/

/-- If some schedule in the list fails cron validation, the Supervisor's
timer-creation loop rejects with an error (the Cron constructor throw
propagates out of the loop). -/
theorem makeTimers_error_of_invalid (cronValid : String → String → Bool) :
    ∀ (l : List Schedule) (s : Schedule), s ∈ l →
      cronValid s.cron_pattern s.timezone = false →
      ∃ e, makeTimers cronValid l = Except.error e
  | [], s, hmem, _ => absurd hmem (List.not_mem_nil s)
  | a :: rest, s, hmem, hbad => by
      rcases List.mem_cons.mp hmem with rfl | htail
      · exact ⟨s.cron_pattern, by simp [makeTimers, hbad]⟩
      · cases ha : cronValid a.cron_pattern a.timezone
        · exact ⟨a.cron_pattern, by simp [makeTimers, ha]⟩
        · obtain ⟨e, he⟩ :=
            makeTimers_error_of_invalid cronValid rest s htail hbad
          exact ⟨e, by simp [makeTimers, ha, he]⟩

/-- C7 counterexample: a start-up table of three enabled schedules where
only the middle one (id 8) has an invalid pattern.  `startScheduler`
rejects with the error instead of skipping that schedule: no timer
collection is produced for the two valid schedules (ids 7 and 9), refuting
the claim that start-up does not abort. -/
theorem c7_claim_counterexample :
    startScheduler validUnlessBad c7db = Except.error "bad" ∧
    (loadSchedules c7db).map Schedule.id = [7, 8, 9] ∧
    validUnlessBad sched7.cron_pattern sched7.timezone = true ∧
    validUnlessBad badSched.cron_pattern badSched.timezone = false :=
  ⟨rfl, by decide, by decide, by decide⟩

/-- C7 (amended): if any enabled schedule's recurrence expression fails to
validate at Supervisor start-up, the Cron constructor's error propagates
and `startScheduler` rejects: start-up aborts (the caller logs and exits)
and no timer set is produced — the other enabled schedules do not get
live timers. -/
theorem c7_invalid_schedule_aborts_startup
    (cronValid : String → String → Bool) (db : List Schedule)
    (s : Schedule) (hmem : s ∈ loadSchedules db)
    (hbad : cronValid s.cron_pattern s.timezone = false) :
    ∃ e, startScheduler cronValid db = Except.error e :=
  makeTimers_error_of_invalid cronValid (loadSchedules db) s hmem hbad

/-- C7 witness: the amended theorem applied to the concrete three-schedule
table with the invalid middle schedule. -/
theorem c7_invalid_schedule_aborts_startup_witness :
    ∃ e, startScheduler validUnlessBad c7db = Except.error e :=
  c7_invalid_schedule_aborts_startup validUnlessBad c7db badSched
    (by decide) (by decide)

/-! C8 -/

/-- C8: schedule creation is atomic and validates before persisting: if no
next-run instant can be derived, `addSchedule` reports an error and the
table is unchanged; and in every case either the operation fails with the
table unchanged, or a next-run instant was derived and exactly the one
validated row (carrying that initial `next_run_at`) is appended. -/
theorem c8_creation_validates_before_insert
    (cronValid : String → String → Bool)
    (cronNext : String → String → Int → Option Int) (now : Int)
    (ty pattern tz : String) (db : List Schedule) (newId : Nat) :
    (cronNext pattern tz now = none →
      (addSchedule cronValid cronNext now ty pattern tz db newId).fst.isSome
        = true ∧
      (addSchedule cronValid cronNext now ty pattern tz db newId).snd = db) ∧
    (((addSchedule cronValid cronNext now ty pattern tz db newId).fst.isSome
        = true ∧
      (addSchedule cronValid cronNext now ty pattern tz db newId).snd = db) ∨
      (∃ nr, cronNext pattern tz now = some nr ∧
        (addSchedule cronValid cronNext now ty pattern tz db newId).fst
          = none ∧
        (addSchedule cronValid cronNext now ty pattern tz db newId).snd
          = db ++ [newScheduleRow ty pattern tz nr now newId])) := by
  cases hv : cronValid pattern tz
  · simp [addSchedule, hv]
  · cases hn : cronNext pattern tz now with
    | none => simp [addSchedule, hv, hn]
    | some nr =>
        cases hc : schedulesTypeCheck ty
        · constructor
          · intro h
            simp [hn] at h
          · left
            simp [addSchedule, insertScheduleRow, newScheduleRow, hv, hn, hc]
        · constructor
          · intro h
            simp [hn] at h
          · right
            exact ⟨nr, rfl, by
              simp [addSchedule, insertScheduleRow, newScheduleRow, hv, hn,
                hc]⟩

/-! C9 -/

/-- When every schedule in the list passes cron validation, the Supervisor's
timer-creation loop succeeds and creates exactly one timer per schedule, in
order, each capturing that schedule record. -/
theorem makeTimers_all_valid (cronValid : String → String → Bool) :
    ∀ l : List Schedule,
      (∀ s ∈ l, cronValid s.cron_pattern s.timezone = true) →
      makeTimers cronValid l = Except.ok (l.map mkTimer)
  | [], _ => rfl
  | a :: rest, h => by
      have ha := h a (List.mem_cons_self a rest)
      have hr := makeTimers_all_valid cronValid rest
        (fun s hs => h s (List.mem_cons_of_mem a hs))
      simp [makeTimers, ha, hr]

/-- C9: at start-up the Supervisor reads exactly the enabled schedules in
ascending id order (a permutation of the enabled rows, sorted), creates
exactly one live timer per such schedule (none for disabled rows), and with
zero enabled schedules returns without error and without timers. -/
theorem c9_one_timer_per_enabled_schedule
    (cronValid : String → String → Bool) (db : List Schedule)
    (h : ∀ s ∈ loadSchedules db, cronValid s.cron_pattern s.timezone = true) :
    startScheduler cronValid db
      = Except.ok ((loadSchedules db).map mkTimer) ∧
    List.Sorted scheduleLE (loadSchedules db) ∧
    List.Perm (loadSchedules db) (db.filter fun s => s.enabled) ∧
    ((loadSchedules db).map mkTimer).length
      = (db.filter fun s => s.enabled).length ∧
    (∀ t ∈ (loadSchedules db).map mkTimer,
      t.callbackSchedule.enabled = true ∧ t.callbackSchedule ∈ db) ∧
    (db.filter (fun s => s.enabled) = [] →
      startScheduler cronValid db = Except.ok []) := by
  have hperm : List.Perm (loadSchedules db) (db.filter fun s => s.enabled) :=
    List.perm_insertionSort scheduleLE _
  refine ⟨makeTimers_all_valid cronValid (loadSchedules db) h,
    List.sorted_insertionSort scheduleLE _, hperm, ?_, ?_, ?_⟩
  · rw [List.length_map]
    exact hperm.length_eq
  · intro t ht
    obtain ⟨s, hs, rfl⟩ := List.mem_map.mp ht
    have hsf : s ∈ db.filter fun s => s.enabled := hperm.mem_iff.mp hs
    have := List.mem_filter.mp hsf
    exact ⟨by simpa using this.2, this.1⟩
  · intro hfil
    simp [startScheduler, loadSchedules, hfil, makeTimers,
      List.insertionSort]

/-- C9 witness: on a table with one enabled and one disabled schedule and
an always-valid cron model, `startScheduler` yields exactly the timers of
the loaded enabled schedules. -/
theorem c9_one_timer_per_enabled_schedule_witness :
    startScheduler validAlways c9db
      = Except.ok ((loadSchedules c9db).map mkTimer) :=
  (c9_one_timer_per_enabled_schedule validAlways c9db (by decide)).1

/-! C10 -/

/-- C10 counterexample: the row `promoRow` has `type = "promo"`, a value
outside {"thank", "shill"}; the CHECK constraint of the schedules table as
defined by the existing schema rejects the insert, refuting the claim that
such a record can be persisted without schema change. -/
theorem c10_claim_counterexample :
    promoRow.type = "promo" ∧ schedulesTypeCheck promoRow.type = false ∧
    insertScheduleRow [] promoRow = none := by
  decide

/-- C10 (amended): the `CHECK (type IN ('thank', 'shill'))` constraint
restricts persisted schedules to exactly the two known kinds: a row whose
`type` is any other value cannot be inserted into the schedules table as it
is defined by the existing schema, so supporting a further job kind
requires a schema change, not just a new dispatch case. -/
theorem c10_type_check_blocks_new_kinds (row : Schedule)
    (db : List Schedule) (h1 : row.type ≠ "thank")
    (h2 : row.type ≠ "shill") :
    insertScheduleRow db row = none := by
  simp [insertScheduleRow, schedulesTypeCheck, h1, h2]

/-- C10 witness: the amended theorem at the concrete row `promoRow` over a
table already holding `sched7`. -/
theorem c10_type_check_blocks_new_kinds_witness :
    insertScheduleRow [sched7] promoRow = none :=
  c10_type_check_blocks_new_kinds promoRow [sched7] (by decide) (by decide)

end Skllz
